import Mathlib

/-!
Shallow embedding of the guest-house booking service:
the booking store (`server/storage.ts`), the HTTP route layer for bookings
(`registerRoutes` in the routes module) and the chat-callback handler
(`handleTelegramWebhook` in `server/telegram.ts`).

Modelling conventions:
* The bookings relation is a `List Booking`; SQL `UPDATE ... RETURNING` with
  `const [row] = ...` is modelled as mapping the update over the list and
  taking the head of the rows matched by the `WHERE` clause.
* Date columns are `text` in the schema and are compared with SQL `<`/`>`,
  i.e. lexicographic string comparison; they are modelled as `String` with
  the explicit lexicographic comparison `strLt` below.
* The `room_numbers` and `extra_beds` columns are `text` columns holding a
  JSON array of numbers; they are modelled by their decoded value
  `Option (List Int)` (`none` = column NULL / field absent or empty).  The
  route branch that answers 400 on malformed JSON text is outside this
  decoded input space.
* JavaScript falsiness of `undefined` and `""` on string-typed values is
  modelled explicitly where the source relies on it (`x || default`).
-/

/-- A row of the `bookings` relation (migration `0000_late_edwin_jarvis.sql`). -/
structure Booking where
  id : String
  fullName : String
  idNumber : String
  phoneNumber : Option String
  customerNotes : Option String
  roomNumber : Int
  roomNumbers : Option (List Int)
  extraBed : Bool
  extraBeds : Option (List Int)
  checkInDate : String
  checkOutDate : String
  totalNights : Int
  totalMVR : Int
  totalUSD : String
  paymentSlip : Option String
  idPhoto : Option String
  status : String
  adminNotes : Option String
  bookingDate : String
deriving Repr, DecidableEq

/-- The bookings relation. -/
abbrev DB := List Booking

/-- Lexicographic strict comparison of character lists, by code point. -/
def charListLt : List Char → List Char → Bool
  | _, [] => false
  | [], _ :: _ => true
  | a :: as, b :: bs =>
      Nat.blt a.toNat b.toNat || (a.toNat == b.toNat && charListLt as bs)

/-- SQL `text` comparison `a < b`: lexicographic on the characters.  On
`YYYY-MM-DD` date strings this coincides with chronological order. -/
def strLt (a b : String) : Bool := charListLt a.data b.data

/-- SQL `text` comparison `a <= b` (total order, so `a <= b` iff `¬ b < a`). -/
def strLe (a b : String) : Bool := !(strLt b a)

/-- `status NOT IN ('Cancelled', 'Rejected')` (status is NOT NULL). -/
def isActiveStatus (s : String) : Bool :=
  s != "Cancelled" && s != "Rejected"

/-- The `WHERE` clause of `checkRoomAvailability` (storage.ts:119-130),
applied to one row: same `room_number`, `check_in_date < checkOut`,
`check_out_date > checkIn`, active status, and `id != excludeBookingId`
when an exclusion id is passed (`1=1` otherwise). -/
def conflictsWith (roomNumber : Int) (checkIn checkOut : String)
    (excludeBookingId : Option String) (b : Booking) : Bool :=
  b.roomNumber == roomNumber
    && strLt b.checkInDate checkOut
    && strLt checkIn b.checkOutDate
    && isActiveStatus b.status
    && (match excludeBookingId with
        | some ex => b.id != ex
        | none => true)

/-- `checkRoomAvailability` (storage.ts:116-133): select the conflicting
rows and return whether the result set is empty. -/
def checkRoomAvailability (db : DB) (roomNumber : Int)
    (checkIn checkOut : String) (excludeBookingId : Option String) : Bool :=
  (db.filter (conflictsWith roomNumber checkIn checkOut excludeBookingId)).length == 0

/-- `getBooking` (storage.ts:55-58): first row whose `id` matches, if any. -/
def getBooking (db : DB) (id : String) : Option Booking :=
  (db.filter (fun b => b.id == id)).head?

/-- The `set` clause of `updateBookingStatus` (storage.ts:80-84): always set
`status`; set `admin_notes` only when the optional argument was supplied. -/
def setStatusFields (status : String) (adminNotes : Option String) (b : Booking) : Booking :=
  { b with
    status := status
    adminNotes := match adminNotes with
      | some n => some n
      | none => b.adminNotes }

/-- `updateBookingStatus` (storage.ts:80-91): update every row matching the
id, return the first updated row (or the absence sentinel) with the
post-state of the relation. -/
def updateBookingStatus (db : DB) (id status : String) (adminNotes : Option String) :
    Option Booking × DB :=
  let db2 := db.map (fun b => if b.id == id then setStatusFields status adminNotes b else b)
  ((db2.filter (fun b => b.id == id)).head?, db2)

/-- The `set` clause of `updateBookingDates` (storage.ts:96-102). -/
def setDatesFields (checkIn checkOut : String) (totalNights totalMVR : Int)
    (totalUSD : String) (b : Booking) : Booking :=
  { b with
    checkInDate := checkIn
    checkOutDate := checkOut
    totalNights := totalNights
    totalMVR := totalMVR
    totalUSD := totalUSD }

/-- `updateBookingDates` (storage.ts:93-106). -/
def updateBookingDates (db : DB) (id checkIn checkOut : String)
    (totalNights totalMVR : Int) (totalUSD : String) : Option Booking × DB :=
  let db2 := db.map (fun b =>
    if b.id == id then setDatesFields checkIn checkOut totalNights totalMVR totalUSD b else b)
  ((db2.filter (fun b => b.id == id)).head?, db2)

/-- JavaScript `x || d` for an optional string value: `undefined` and `""`
are falsy, any other string is kept (createBooking, storage.ts:63-64). -/
def jsStrOr (v : Option String) (d : String) : String :=
  match v with
  | none => d
  | some s => if s == "" then d else s

/-- The insertable booking values (`InsertBooking`): every column except the
generated `id`; `status` and `booking_date` may be left for defaulting. -/
structure InsertBooking where
  fullName : String
  idNumber : String
  phoneNumber : Option String
  customerNotes : Option String
  roomNumber : Int
  roomNumbers : Option (List Int)
  extraBed : Bool
  extraBeds : Option (List Int)
  checkInDate : String
  checkOutDate : String
  totalNights : Int
  totalMVR : Int
  totalUSD : String
  paymentSlip : Option String
  idPhoto : Option String
  status : Option String
  adminNotes : Option String
  bookingDate : Option String
deriving Repr, DecidableEq

/-- `createBooking` (storage.ts:60-78): default `status` to `"Pending"` and
`booking_date` to the creation day via JavaScript `||`, insert, and return
the persisted row (with the generated id) alongside the new relation.
`genId` is the id generated by the database, `today` the creation day. -/
def createBooking (db : DB) (genId today : String) (ins : InsertBooking) :
    Booking × DB :=
  let b : Booking :=
    { id := genId
      fullName := ins.fullName
      idNumber := ins.idNumber
      phoneNumber := ins.phoneNumber
      customerNotes := ins.customerNotes
      roomNumber := ins.roomNumber
      roomNumbers := ins.roomNumbers
      extraBed := ins.extraBed
      extraBeds := ins.extraBeds
      checkInDate := ins.checkInDate
      checkOutDate := ins.checkOutDate
      totalNights := ins.totalNights
      totalMVR := ins.totalMVR
      totalUSD := ins.totalUSD
      paymentSlip := ins.paymentSlip
      idPhoto := ins.idPhoto
      status := jsStrOr ins.status "Pending"
      adminNotes := ins.adminNotes
      bookingDate := jsStrOr ins.bookingDate today }
  (b, db ++ [b])

/-- JavaScript truthiness test for an optional string request field:
`undefined` and `""` are falsy (`!field` in the route code). -/
def strFieldMissing (v : Option String) : Bool :=
  match v with
  | none => true
  | some s => s == ""

/-- JavaScript truthiness test for an optional numeric request field:
`undefined` and `0` are falsy. -/
def intFieldMissing (v : Option Int) : Bool :=
  match v with
  | none => true
  | some n => n == 0

/-- JavaScript `x || undefined` for a string-typed field: an empty string
collapses to `undefined`. -/
def jsStrOrUndef (v : Option String) : Option String :=
  match v with
  | some s => if s == "" then none else some s
  | none => none

/-- Response of `PATCH /api/bookings/:id/dates` (status codes 400/404/409/200). -/
inductive DatesResp where
  | badRequest (msg : String)
  | notFound (msg : String)
  | conflict (msg : String)
  | ok (b : Booking)
deriving Repr, DecidableEq

/-- Request body of `PATCH /api/bookings/:id/dates`. -/
structure DatesReq where
  checkInDate : Option String
  checkOutDate : Option String
  totalNights : Option Int
  totalMVR : Option Int
  totalUSD : Option String
deriving Repr, DecidableEq

/-- `PATCH /api/bookings/:id/dates` (routes module, lines 171-214): require
all five fields truthy, look the booking up (404 when absent), re-check
availability for the booking's room with the new dates excluding the
booking's own id (409 on conflict), then overwrite dates and totals. -/
def patchBookingDates (db : DB) (id : String) (req : DatesReq) : DatesResp × DB :=
  if strFieldMissing req.checkInDate || strFieldMissing req.checkOutDate
      || intFieldMissing req.totalNights || intFieldMissing req.totalMVR
      || strFieldMissing req.totalUSD then
    (.badRequest "Missing required date fields", db)
  else
    let ci := req.checkInDate.getD ""
    let co := req.checkOutDate.getD ""
    match getBooking db id with
    | none => (.notFound "Booking not found", db)
    | some existing =>
        if checkRoomAvailability db existing.roomNumber ci co (some id) then
          match updateBookingDates db id ci co (req.totalNights.getD 0)
              (req.totalMVR.getD 0) (req.totalUSD.getD "") with
          | (some b, db2) => (.ok b, db2)
          | (none, db2) => (.notFound "Booking not found", db2)
        else
          (.conflict "Room not available for selected dates", db)

/-- Response of the status-transition PATCH endpoints (404/200). -/
inductive StatusResp where
  | notFound (msg : String)
  | ok (b : Booking)
deriving Repr, DecidableEq

/-- `PATCH /api/bookings/:id/confirm` (routes module, lines 128-139). -/
def patchBookingConfirm (db : DB) (id : String) : StatusResp × DB :=
  match updateBookingStatus db id "Confirmed" none with
  | (some b, db2) => (.ok b, db2)
  | (none, db2) => (.notFound "Booking not found", db2)

/-- `PATCH /api/bookings/:id/reject` (routes module, lines 142-154). -/
def patchBookingReject (db : DB) (id : String) (adminNotes : Option String) :
    StatusResp × DB :=
  match updateBookingStatus db id "Rejected" adminNotes with
  | (some b, db2) => (.ok b, db2)
  | (none, db2) => (.notFound "Booking not found", db2)

/-- `PATCH /api/bookings/:id/cancel` (routes module, lines 157-168). -/
def patchBookingCancel (db : DB) (id : String) : StatusResp × DB :=
  match updateBookingStatus db id "Cancelled" none with
  | (some b, db2) => (.ok b, db2)
  | (none, db2) => (.notFound "Booking not found", db2)

/-- An inbound chat-callback action (`callback_data` of the inline keyboard:
`approve_<id>` or `reject_<id>`). -/
inductive CallbackAction where
  | approve (bookingId : String)
  | reject (bookingId : String)
deriving Repr, DecidableEq

/-- Store effect of `handleTelegramWebhook` (telegram.ts, callback-query
branch): the approve branch looks the booking up and, when found, calls
`updateBookingStatus(bookingId, "Confirmed")`; the reject branch looks the
booking up and performs only messaging calls (`answerCallbackQuery`,
`editMessageReplyMarkup`, `sendMessageToChat`) — it contains no store
write, so the relation is returned unchanged. -/
def handleTelegramCallback (db : DB) (a : CallbackAction) : DB :=
  match a with
  | .approve bid =>
      match getBooking db bid with
      | some _ => (updateBookingStatus db bid "Confirmed" none).2
      | none => db
  | .reject bid =>
      match getBooking db bid with
      | some _ => db
      | none => db

/-- The decoded form fields of `POST /api/bookings` after the untyped
destructuring and `parseInt`/boolean coercions of the route handler;
`roomNumbers`/`extraBeds` carry the JSON-decoded array when the field was
present and well-formed JSON, `idPhotoFile`/`paymentSlipFile` the stored
filenames of the uploaded files. -/
structure CreateReq where
  fullName : String
  idNumber : String
  phoneNumber : Option String
  customerNotes : Option String
  roomNumber : Int
  roomNumbers : Option (List Int)
  extraBed : Bool
  extraBeds : Option (List Int)
  checkInDate : String
  checkOutDate : String
  totalNights : Int
  totalMVR : Int
  totalUSD : String
  idPhotoFile : Option String
  paymentSlipFile : Option String
deriving Repr, DecidableEq

/-- Response of `POST /api/bookings` (400/409/201). -/
inductive CreateResp where
  | badRequest (msg : String)
  | conflict (room : Int)
  | created (b : Booking)
deriving Repr, DecidableEq

/-- Outcome of one `POST /api/bookings` request: the response, the
post-state of the relation, and the uploaded files deleted by
`cleanupFiles` (empty when cleanup was not invoked). -/
structure CreateResult where
  resp : CreateResp
  db : DB
  deletedFiles : List String
deriving Repr, DecidableEq

/-- Element check of the room-list validations:
`every(r => typeof r === 'number' && r >= 1 && r <= 10)`. -/
def roomListOk (l : List Int) : Bool :=
  l.all (fun x => decide (1 ≤ x) && decide (x ≤ 10))

/-- `cleanupFiles` (routes module, lines 410-417): unlink the id photo and
the payment slip when present; returns the filenames removed. -/
def cleanupFiles (r : CreateReq) : List String :=
  r.idPhotoFile.toList ++ r.paymentSlipFile.toList

/-- The Zod `validationSchema` of `POST /api/bookings` (lines 420-438):
`fullName` min 2, `idNumber` min 3, `roomNumber` in [1,10], non-empty date
strings, `totalNights` ≥ 1, `totalMVR` ≥ 1; the remaining fields are
optional or unconstrained (`z.string()`). -/
def zodValidBooking (r : CreateReq) : Bool :=
  decide (2 ≤ r.fullName.length) && decide (3 ≤ r.idNumber.length)
    && decide (1 ≤ r.roomNumber) && decide (r.roomNumber ≤ 10)
    && decide (1 ≤ r.checkInDate.length) && decide (1 ≤ r.checkOutDate.length)
    && decide (1 ≤ r.totalNights) && decide (1 ≤ r.totalMVR)

/-- `parsedRoomNumbers || [parseInt(roomNumber, 10)]` (line 449); note that
a present empty list is kept (a JS empty array is truthy). -/
def selectedRooms (r : CreateReq) : List Int :=
  match r.roomNumbers with
  | some l => l
  | none => [r.roomNumber]

/-- The `bookingData` object built by the handler (lines 360-378): `status`
hard-coded to "Pending", `bookingDate` set to the request day, empty-string
optionals collapsed to `undefined`. -/
def insertFromReq (r : CreateReq) (today : String) : InsertBooking :=
  { fullName := r.fullName
    idNumber := r.idNumber
    phoneNumber := jsStrOrUndef r.phoneNumber
    customerNotes := jsStrOrUndef r.customerNotes
    roomNumber := r.roomNumber
    roomNumbers := r.roomNumbers
    extraBed := r.extraBed
    extraBeds := r.extraBeds
    checkInDate := r.checkInDate
    checkOutDate := r.checkOutDate
    totalNights := r.totalNights
    totalMVR := r.totalMVR
    totalUSD := r.totalUSD
    paymentSlip := r.paymentSlipFile
    idPhoto := r.idPhotoFile
    status := some "Pending"
    adminNotes := none
    bookingDate := some today }

/-- `POST /api/bookings` (routes module, lines 351-486): validate the room
and extra-bed lists (400, no cleanup — these branches precede
`cleanupFiles`), run the Zod schema (400 with cleanup), check availability
of every selected room against the current relation in order and answer
409 with cleanup at the first unavailable room, otherwise insert via
`createBooking` and answer 201 with the persisted row. -/
def postBooking (db : DB) (genId today : String) (r : CreateReq) : CreateResult :=
  if (match r.roomNumbers with | some l => !(roomListOk l) | none => false) then
    ⟨.badRequest "Invalid room numbers format", db, []⟩
  else if (match r.extraBeds with | some l => !(roomListOk l) | none => false) then
    ⟨.badRequest "Invalid extra beds format", db, []⟩
  else if (match r.extraBeds, r.roomNumbers with
           | some l, some rl => !(l.all (fun x => rl.contains x))
           | _, _ => false) then
    ⟨.badRequest "Extra beds can only be added to selected rooms", db, []⟩
  else if !(zodValidBooking r) then
    ⟨.badRequest "Validation failed", db, cleanupFiles r⟩
  else
    match (selectedRooms r).find?
        (fun room => !(checkRoomAvailability db room r.checkInDate r.checkOutDate none)) with
    | some room => ⟨.conflict room, db, cleanupFiles r⟩
    | none =>
        let res := createBooking db genId today (insertFromReq r today)
        ⟨.created res.1, res.2, []⟩

/-- A sample pending booking used by concrete witnesses. -/
def sampleBooking : Booking :=
  { id := "b1"
    fullName := "Guest One"
    idNumber := "A1234"
    phoneNumber := none
    customerNotes := none
    roomNumber := 2
    roomNumbers := none
    extraBed := false
    extraBeds := none
    checkInDate := "2025-12-24"
    checkOutDate := "2025-12-25"
    totalNights := 1
    totalMVR := 600
    totalUSD := "30.00"
    paymentSlip := none
    idPhoto := none
    status := "Pending"
    adminNotes := none
    bookingDate := "2025-12-01" }

/-- A sample creation request used by concrete witnesses. -/
def sampleCreateReq : CreateReq :=
  { fullName := "Guest Two"
    idNumber := "B5678"
    phoneNumber := none
    customerNotes := none
    roomNumber := 2
    roomNumbers := none
    extraBed := false
    extraBeds := none
    checkInDate := "2025-12-24"
    checkOutDate := "2025-12-26"
    totalNights := 2
    totalMVR := 1200
    totalUSD := "60.00"
    idPhotoFile := some "123-id.jpg"
    paymentSlipFile := some "123-slip.jpg" }

/-- `sampleBooking` in a terminal state. -/
def cancelledSample : Booking := { sampleBooking with status := "Cancelled" }

/-- `sampleBooking` in the other terminal state. -/
def rejectedSample : Booking := { sampleBooking with status := "Rejected" }

/-- A well-formed dates-edit request moving the stay to a free range. -/
def sampleDatesReq : DatesReq :=
  { checkInDate := some "2026-01-10"
    checkOutDate := some "2026-01-12"
    totalNights := some 2
    totalMVR := some 1200
    totalUSD := some "60.00" }

/-- A creation request whose check-out string precedes its check-in string. -/
def invertedDatesReq : CreateReq :=
  { sampleCreateReq with checkInDate := "2025-12-26", checkOutDate := "2025-12-24" }

/-- The row `POST /api/bookings` persists for `invertedDatesReq` on an empty
store. -/
def invertedDatesRow : Booking :=
  (createBooking [] "g1" "2025-12-20" (insertFromReq invertedDatesReq "2025-12-20")).1

/-- Insert values carrying an explicit non-Pending status. -/
def confirmedInsert : InsertBooking :=
  { fullName := "Guest Three"
    idNumber := "C9999"
    phoneNumber := none
    customerNotes := none
    roomNumber := 3
    roomNumbers := none
    extraBed := false
    extraBeds := none
    checkInDate := "2026-02-01"
    checkOutDate := "2026-02-03"
    totalNights := 2
    totalMVR := 1200
    totalUSD := "60.00"
    paymentSlip := none
    idPhoto := none
    status := some "Confirmed"
    adminNotes := none
    bookingDate := some "2026-01-15" }

/-- Insert values leaving status and booking_date for defaulting. -/
def pendingInsert : InsertBooking :=
  { confirmedInsert with status := none, bookingDate := none }

/-- A multi-room booking whose `room_numbers` list covers room 2 but whose
scalar `room_number` is 1. -/
def multiRoomSample : Booking :=
  { sampleBooking with id := "m1", roomNumber := 1, roomNumbers := some [1, 2] }

/-- All columns of the two rows agree except possibly `status` and
`admin_notes`. -/
def agreesExceptStatusNotes (a b : Booking) : Prop :=
  b.id = a.id ∧ b.fullName = a.fullName ∧ b.idNumber = a.idNumber ∧
  b.phoneNumber = a.phoneNumber ∧ b.customerNotes = a.customerNotes ∧
  b.roomNumber = a.roomNumber ∧ b.roomNumbers = a.roomNumbers ∧
  b.extraBed = a.extraBed ∧ b.extraBeds = a.extraBeds ∧
  b.checkInDate = a.checkInDate ∧ b.checkOutDate = a.checkOutDate ∧
  b.totalNights = a.totalNights ∧ b.totalMVR = a.totalMVR ∧
  b.totalUSD = a.totalUSD ∧ b.paymentSlip = a.paymentSlip ∧
  b.idPhoto = a.idPhoto ∧ b.bookingDate = a.bookingDate

example :
    checkRoomAvailability [sampleBooking] 2 "2025-12-24" "2025-12-26" none = false := by
  decide

example :
    checkRoomAvailability [{ sampleBooking with status := "Rejected" }]
      2 "2025-12-24" "2025-12-26" none = true := by
  decide

/-- `checkRoomAvailability` answers `false` exactly when the filter keeps
some row. -/
theorem checkRoomAvailability_false_iff (db : DB) (roomNumber : Int)
    (checkIn checkOut : String) (excl : Option String) :
    checkRoomAvailability db roomNumber checkIn checkOut excl = false ↔
      ∃ b ∈ db, conflictsWith roomNumber checkIn checkOut excl b = true := by
  unfold checkRoomAvailability
  rcases h : db.filter (conflictsWith roomNumber checkIn checkOut excl) with _ | ⟨b, l⟩
  · simp only [List.length_nil, beq_self_eq_true]
    constructor
    · intro hfalse; cases hfalse
    · rintro ⟨b, hb, hc⟩
      have : b ∈ db.filter (conflictsWith roomNumber checkIn checkOut excl) :=
        List.mem_filter.mpr ⟨hb, hc⟩
      rw [h] at this
      cases this
  · constructor
    · intro _
      have hmem : b ∈ db.filter (conflictsWith roomNumber checkIn checkOut excl) := by
        rw [h]; exact List.mem_cons_self b l
      exact ⟨b, (List.mem_filter.mp hmem).1, (List.mem_filter.mp hmem).2⟩
    · intro _; rfl

/-- The lexicographic comparison is irreflexive. -/
theorem charListLt_irrefl (l : List Char) : charListLt l l = false := by
  induction l with
  | nil => rfl
  | cons a as ih =>
      show (Nat.blt a.toNat a.toNat || (a.toNat == a.toNat && charListLt as as)) = false
      rw [ih]
      have hblt : Nat.blt a.toNat a.toNat = false := by
        cases h : Nat.blt a.toNat a.toNat
        · rfl
        · exfalso
          rw [Nat.blt_eq] at h
          exact Nat.lt_irrefl _ h
      rw [hblt]
      simp

/-- SQL text `<` is irreflexive, so equal date endpoints never overlap. -/
theorem strLt_irrefl (s : String) : strLt s s = false :=
  charListLt_irrefl s.data

/-- C1: for every room number, check-in string, check-out string and
optional excluded booking id, `checkRoomAvailability` returns `false` iff
some booking exists whose `roomNumber` equals the queried room, whose
status is neither "Cancelled" nor "Rejected", whose id differs from the
excluded id when one is given, and whose dates satisfy
`existing.checkInDate < checkOut` and `existing.checkOutDate > checkIn`;
moreover the comparisons are strict: a booking sharing an endpoint with
the queried range (back-to-back stay) is never a conflict. -/
theorem c1_checkRoomAvailability_false_iff_overlap (db : DB) (roomNumber : Int)
    (checkIn checkOut : String) (excl : Option String) :
    (checkRoomAvailability db roomNumber checkIn checkOut excl = false ↔
      ∃ b ∈ db,
        b.roomNumber = roomNumber ∧
        b.status ≠ "Cancelled" ∧
        b.status ≠ "Rejected" ∧
        (∀ ex, excl = some ex → b.id ≠ ex) ∧
        strLt b.checkInDate checkOut = true ∧
        strLt checkIn b.checkOutDate = true) ∧
    (∀ b ∈ db, b.checkInDate = checkOut ∨ b.checkOutDate = checkIn →
      conflictsWith roomNumber checkIn checkOut excl b = false) := by
  refine ⟨?_, ?_⟩
  swap
  · intro b hb hcase
    unfold conflictsWith
    rcases hcase with h | h
    · rw [h, strLt_irrefl]
      simp
    · rw [h, strLt_irrefl]
      simp
  rw [checkRoomAvailability_false_iff]
  constructor
  · rintro ⟨b, hb, hc⟩
    refine ⟨b, hb, ?_⟩
    unfold conflictsWith isActiveStatus at hc
    cases excl with
    | none =>
        simp only [Bool.and_true, Bool.and_eq_true, beq_iff_eq, bne_iff_ne] at hc
        refine ⟨hc.1.1.1, hc.2.1, hc.2.2, ?_, hc.1.1.2, hc.1.2⟩
        intro ex hex
        exact Option.noConfusion hex
    | some ex =>
        simp only [Bool.and_eq_true, beq_iff_eq, bne_iff_ne] at hc
        refine ⟨hc.1.1.1.1, hc.1.2.1, hc.1.2.2, ?_, hc.1.1.1.2, hc.1.1.2⟩
        intro e he
        injection he with he'
        exact he' ▸ hc.2
  · rintro ⟨b, hb, hroom, hcanc, hrej, hexcl, hci, hco⟩
    refine ⟨b, hb, ?_⟩
    unfold conflictsWith isActiveStatus
    cases excl with
    | none =>
        simp only [Bool.and_true, Bool.and_eq_true, beq_iff_eq, bne_iff_ne]
        exact ⟨⟨⟨hroom, hci⟩, hco⟩, hcanc, hrej⟩
    | some ex =>
        simp only [Bool.and_eq_true, beq_iff_eq, bne_iff_ne]
        exact ⟨⟨⟨⟨hroom, hci⟩, hco⟩, hcanc, hrej⟩, hexcl ex rfl⟩

/-- An update that only touches rows matching an id, and preserves the id,
commutes with selecting the rows matching that id. -/
theorem filter_id_map_update (db : DB) (id : String) (f : Booking → Booking)
    (hf : ∀ b, (f b).id = b.id) :
    (db.map (fun b => if b.id == id then f b else b)).filter (fun b => b.id == id)
      = (db.filter (fun b => b.id == id)).map f := by
  induction db with
  | nil => rfl
  | cons a l ih =>
      by_cases h : a.id = id
      · have hbeq : (a.id == id) = true := beq_iff_eq.mpr h
        have hbeq2 : ((f a).id == id) = true := by rw [hf a]; exact hbeq
        rw [List.map_cons, if_pos hbeq,
          @List.filter_cons_of_pos Booking (fun b => b.id == id) (f a) _ hbeq2,
          @List.filter_cons_of_pos Booking (fun b => b.id == id) a _ hbeq,
          List.map_cons, ih]
      · have hbeq : ¬ ((a.id == id) = true) := by
          simp only [beq_iff_eq]
          exact h
        rw [List.map_cons, if_neg hbeq,
          @List.filter_cons_of_neg Booking (fun b => b.id == id) a _ hbeq,
          @List.filter_cons_of_neg Booking (fun b => b.id == id) a _ hbeq, ih]

/-- A row found by `getBooking` is a member of the relation and carries the
queried id. -/
theorem getBooking_some (db : DB) (id : String) (b : Booking)
    (h : getBooking db id = some b) : b ∈ db ∧ b.id = id := by
  unfold getBooking at h
  have hmem : b ∈ db.filter (fun x => x.id == id) := by
    cases hf : db.filter (fun x => x.id == id) with
    | nil => rw [hf] at h; cases h
    | cons x xs =>
        rw [hf] at h
        simp only [List.head?] at h
        cases h
        exact List.mem_cons_self ..
  have hm := List.mem_filter.mp hmem
  exact ⟨hm.1, beq_iff_eq.mp hm.2⟩

/-- When `getBooking` finds a row, `updateBookingStatus` returns that row
with the status update applied. -/
theorem updateBookingStatus_of_getBooking (db : DB) (id st : String)
    (notes : Option String) (b : Booking) (hget : getBooking db id = some b) :
    (updateBookingStatus db id st notes).1 = some (setStatusFields st notes b) := by
  unfold updateBookingStatus
  simp only
  rw [filter_id_map_update db id (setStatusFields st notes) (fun x => rfl), List.head?_map]
  unfold getBooking at hget
  rw [hget]
  rfl

/-- When `getBooking` finds a row, `updateBookingDates` returns that row
with the dates update applied. -/
theorem updateBookingDates_of_getBooking (db : DB) (id : String) (b : Booking)
    (hget : getBooking db id = some b) (ci co : String) (tn tm : Int) (tu : String) :
    (updateBookingDates db id ci co tn tm tu).1 =
      some (setDatesFields ci co tn tm tu b) := by
  unfold updateBookingDates
  simp only
  rw [filter_id_map_update db id (setDatesFields ci co tn tm tu) (fun x => rfl),
    List.head?_map]
  unfold getBooking at hget
  rw [hget]
  rfl

/-- C2 counterexample: for the Cancelled booking `cancelledSample`, the
dates PATCH is not refused: it answers ok and overwrites the stay window
and totals (the claim says it must be refused and leave them unchanged). -/
theorem c2_counterexample_dates_edit_on_cancelled_accepted :
    cancelledSample.status = "Cancelled" ∧
    (patchBookingDates [cancelledSample] "b1" sampleDatesReq).1 =
      DatesResp.ok { cancelledSample with
        checkInDate := "2026-01-10", checkOutDate := "2026-01-12",
        totalNights := 2, totalMVR := 1200, totalUSD := "60.00" } ∧
    (patchBookingDates [cancelledSample] "b1" sampleDatesReq).2 =
      [{ cancelledSample with
        checkInDate := "2026-01-10", checkOutDate := "2026-01-12",
        totalNights := 2, totalMVR := 1200, totalUSD := "60.00" }] := by
  decide

/-- C2 (amended): `PATCH /api/bookings/:id/dates` performs no status check;
for a booking in a terminal status (Cancelled or Rejected) the edit is
processed like any other: with all five fields supplied and truthy, the
booking found, and the new range conflict-free among the other active
bookings of its room, the handler answers ok with the new stay window and
totals (status untouched) and persists the change. -/
theorem c2_amended_dates_edit_ignores_status
    (db : DB) (id : String) (req : DatesReq) (b : Booking)
    (ci co : String) (tn tm : Int) (tu : String)
    (hci : req.checkInDate = some ci) (hco : req.checkOutDate = some co)
    (htn : req.totalNights = some tn) (htm : req.totalMVR = some tm)
    (htu : req.totalUSD = some tu)
    (hci2 : ci ≠ "") (hco2 : co ≠ "") (htn2 : tn ≠ 0) (htm2 : tm ≠ 0) (htu2 : tu ≠ "")
    (hget : getBooking db id = some b)
    (hterm : b.status = "Cancelled" ∨ b.status = "Rejected")
    (havail : checkRoomAvailability db b.roomNumber ci co (some id) = true) :
    ∃ b', (patchBookingDates db id req).1 = DatesResp.ok b' ∧
      b'.checkInDate = ci ∧ b'.checkOutDate = co ∧ b'.totalNights = tn ∧
      b'.totalMVR = tm ∧ b'.totalUSD = tu ∧ b'.status = b.status ∧
      b' ∈ (patchBookingDates db id req).2 := by
  have hmiss : (strFieldMissing req.checkInDate || strFieldMissing req.checkOutDate
      || intFieldMissing req.totalNights || intFieldMissing req.totalMVR
      || strFieldMissing req.totalUSD) = false := by
    rw [hci, hco, htn, htm, htu]
    simp [strFieldMissing, intFieldMissing, hci2, hco2, htn2, htm2, htu2]
  rcases hupd : updateBookingDates db id ci co tn tm tu with ⟨ores, db2⟩
  have hres : ores = some (setDatesFields ci co tn tm tu b) := by
    have h1 := updateBookingDates_of_getBooking db id b hget ci co tn tm tu
    rw [hupd] at h1
    exact h1
  subst hres
  have hpatch : patchBookingDates db id req =
      (DatesResp.ok (setDatesFields ci co tn tm tu b), db2) := by
    unfold patchBookingDates
    rw [hmiss]
    simp only [Bool.false_eq_true, if_false, hci, hco, htn, htm, htu,
      Option.getD_some, hget, havail, if_true, hupd]
  refine ⟨setDatesFields ci co tn tm tu b, ?_, rfl, rfl, rfl, rfl, rfl, rfl, ?_⟩
  · rw [hpatch]
  · rw [hpatch]
    have hb := getBooking_some db id b hget
    have hdb2 : db2 = db.map (fun x =>
        if x.id == id then setDatesFields ci co tn tm tu x else x) := by
      have h2 : (updateBookingDates db id ci co tn tm tu).2 = db2 := by rw [hupd]
      rw [← h2]
      rfl
    rw [hdb2]
    have : (fun x => if x.id == id then setDatesFields ci co tn tm tu x else x) b
        = setDatesFields ci co tn tm tu b := by
      have : (b.id == id) = true := beq_iff_eq.mpr hb.2
      simp [this]
    rw [← this]
    exact List.mem_map_of_mem _ hb.1

/-- C2 amended, concrete witness: editing the dates of a Cancelled booking
to a free range succeeds. -/
theorem c2_amended_witness :
    ∃ b', (patchBookingDates [cancelledSample] "b1" sampleDatesReq).1 = DatesResp.ok b' ∧
      b'.checkInDate = "2026-01-10" ∧ b'.checkOutDate = "2026-01-12" ∧
      b'.totalNights = 2 ∧ b'.totalMVR = 1200 ∧ b'.totalUSD = "60.00" ∧
      b'.status = cancelledSample.status ∧
      b' ∈ (patchBookingDates [cancelledSample] "b1" sampleDatesReq).2 :=
  c2_amended_dates_edit_ignores_status [cancelledSample] "b1" sampleDatesReq
    cancelledSample "2026-01-10" "2026-01-12" 2 1200 "60.00"
    rfl rfl rfl rfl rfl
    (by decide) (by decide) (by decide) (by decide) (by decide)
    (by decide) (Or.inl rfl) (by decide)

/-- C3 counterexample: `rejectedSample` is in the terminal status Rejected,
yet `PATCH /api/bookings/:id/confirm` moves it to Confirmed (the claim says
no status-transition operation ever changes a terminal status). -/
theorem c3_counterexample_confirm_leaves_terminal :
    rejectedSample.status = "Rejected" ∧
    (patchBookingConfirm [rejectedSample] "b1").1 =
      StatusResp.ok { sampleBooking with status := "Confirmed" } ∧
    (patchBookingConfirm [rejectedSample] "b1").2 =
      [{ sampleBooking with status := "Confirmed" }] := by
  decide

/-- C3 (amended): the status-transition endpoints perform no precondition
check on the current status — `updateBookingStatus` overwrites the status
of every matching row unconditionally — so Rejected and Cancelled are not
terminal: for any stored booking in a terminal status, the confirm endpoint
produces the same booking with status Confirmed in the post-state. -/
theorem c3_amended_status_transitions_unguarded
    (db : DB) (b : Booking) (hb : b ∈ db)
    (hterm : b.status = "Rejected" ∨ b.status = "Cancelled") :
    { b with status := "Confirmed" } ∈ (patchBookingConfirm db b.id).2 := by
  have h2 : (patchBookingConfirm db b.id).2 =
      (updateBookingStatus db b.id "Confirmed" none).2 := by
    unfold patchBookingConfirm
    rcases updateBookingStatus db b.id "Confirmed" none with ⟨ores, db2⟩
    cases ores <;> rfl
  rw [h2]
  have hdb2 : (updateBookingStatus db b.id "Confirmed" none).2 =
      db.map (fun x => if x.id == b.id then setStatusFields "Confirmed" none x else x) := rfl
  rw [hdb2]
  have hfx : (fun x => if x.id == b.id then setStatusFields "Confirmed" none x else x) b
      = { b with status := "Confirmed" } := by
    simp [setStatusFields]
  rw [← hfx]
  exact List.mem_map_of_mem _ hb

/-- C3 amended, concrete witness: confirming the Rejected sample booking
puts the Confirmed version of it in the store. -/
theorem c3_amended_witness :
    { rejectedSample with status := "Confirmed" } ∈
      (patchBookingConfirm [rejectedSample] rejectedSample.id).2 :=
  c3_amended_status_transitions_unguarded [rejectedSample] rejectedSample
    (List.mem_cons_self ..) (Or.inl rfl)

/-- C4 (code-bug evidence): a reject callback for the existing Pending
booking `b1` leaves the store unchanged — the booking stays Pending — even
though `PATCH /api/bookings/:id/reject` on the same store sets the status
to Rejected; the approve callback, by contrast, does update the store. -/
theorem c4_reject_callback_does_not_update_status :
    handleTelegramCallback [sampleBooking] (CallbackAction.reject "b1") = [sampleBooking] ∧
    sampleBooking.status = "Pending" ∧
    (patchBookingReject [sampleBooking] "b1" none).2 = [rejectedSample] ∧
    handleTelegramCallback [sampleBooking] (CallbackAction.approve "b1") =
      [{ sampleBooking with status := "Confirmed" }] := by
  decide

/-- C5 counterexample: a creation request whose check-out string is below
its check-in string passes validation and is persisted (the claim says it
must be rejected before any row is inserted). -/
theorem c5_counterexample_inverted_dates_accepted :
    strLe invertedDatesReq.checkOutDate invertedDatesReq.checkInDate = true ∧
    (postBooking [] "g1" "2025-12-20" invertedDatesReq).resp =
      CreateResp.created invertedDatesRow ∧
    (postBooking [] "g1" "2025-12-20" invertedDatesReq).db = [invertedDatesRow] := by
  decide

/-- C5 (amended): the creation path checks only that the date strings are
non-empty, never their order: a single-room request that passes the Zod
field checks and whose room is free for the (possibly empty or inverted)
range is accepted and persisted even when `checkOut <= checkIn`. -/
theorem c5_amended_no_date_order_validation
    (db : DB) (genId today : String) (r : CreateReq)
    (hrn : r.roomNumbers = none) (heb : r.extraBeds = none)
    (hzod : zodValidBooking r = true)
    (hinv : strLe r.checkOutDate r.checkInDate = true)
    (hfree : checkRoomAvailability db r.roomNumber r.checkInDate r.checkOutDate none = true) :
    (postBooking db genId today r).resp =
      CreateResp.created (createBooking db genId today (insertFromReq r today)).1 ∧
    (postBooking db genId today r).db =
      db ++ [(createBooking db genId today (insertFromReq r today)).1] := by
  have hpost : postBooking db genId today r =
      ⟨CreateResp.created (createBooking db genId today (insertFromReq r today)).1,
        (createBooking db genId today (insertFromReq r today)).2, []⟩ := by
    unfold postBooking
    rw [hrn, heb, hzod]
    simp [selectedRooms, hrn, List.find?, hfree]
  rw [hpost]
  exact ⟨rfl, rfl⟩

/-- C5 amended, concrete witness: the inverted-dates request is accepted on
an empty store and its row persisted. -/
theorem c5_amended_witness :
    (postBooking [] "g1" "2025-12-20" invertedDatesReq).resp =
      CreateResp.created
        (createBooking [] "g1" "2025-12-20" (insertFromReq invertedDatesReq "2025-12-20")).1 ∧
    (postBooking [] "g1" "2025-12-20" invertedDatesReq).db =
      [] ++ [(createBooking [] "g1" "2025-12-20" (insertFromReq invertedDatesReq "2025-12-20")).1] :=
  c5_amended_no_date_order_validation [] "g1" "2025-12-20" invertedDatesReq
    rfl rfl (by decide) (by decide) (by decide)

/-- A row whose status fails `NOT IN ('Cancelled','Rejected')` never counts
as a conflict. -/
theorem conflictsWith_eq_false_of_inactive (roomNumber : Int) (ci co : String)
    (excl : Option String) (b : Booking) (h : isActiveStatus b.status = false) :
    conflictsWith roomNumber ci co excl b = false := by
  unfold conflictsWith
  rw [h]
  simp

/-- C6: for an active booking on room `rn` overlapping `[ci, co)` that is the
only booking conflicting with that range, setting its status to Rejected or
Cancelled via `updateBookingStatus` frees the room: the subsequent
availability check for the same range returns true. -/
theorem c6_reject_or_cancel_frees_room
    (db : DB) (b : Booking) (rn : Int) (ci co st : String)
    (hb : b ∈ db)
    (hroom : b.roomNumber = rn)
    (hact : isActiveStatus b.status = true)
    (hci : strLt b.checkInDate co = true)
    (hco : strLt ci b.checkOutDate = true)
    (honly : ∀ b2 ∈ db, conflictsWith rn ci co none b2 = true → b2.id = b.id)
    (hst : st = "Rejected" ∨ st = "Cancelled") :
    checkRoomAvailability (updateBookingStatus db b.id st none).2 rn ci co none = true := by
  have hstInactive : isActiveStatus st = false := by
    rcases hst with rfl | rfl <;> rfl
  have hdb2 : (updateBookingStatus db b.id st none).2 =
      db.map (fun x => if x.id == b.id then setStatusFields st none x else x) := rfl
  rw [hdb2]
  unfold checkRoomAvailability
  have hnil : (db.map (fun x => if x.id == b.id then setStatusFields st none x else x)).filter
      (conflictsWith rn ci co none) = [] := by
    rw [List.filter_eq_nil_iff]
    intro x hx
    rcases List.mem_map.mp hx with ⟨b2, hb2, rfl⟩
    by_cases hid : b2.id = b.id
    · have hbeq : (b2.id == b.id) = true := beq_iff_eq.mpr hid
      rw [if_pos hbeq]
      intro hconf
      rw [conflictsWith_eq_false_of_inactive rn ci co none _ hstInactive] at hconf
      exact Bool.noConfusion hconf
    · have hbeq : ¬ ((b2.id == b.id) = true) := by
        simp only [beq_iff_eq]
        exact hid
      rw [if_neg hbeq]
      intro hconf
      exact hid (honly b2 hb2 hconf)
  rw [hnil]
  rfl

/-- C6, concrete witness: rejecting the only conflicting booking for
room 2 over 2025-12-24..26 makes the range available again. -/
theorem c6_witness :
    checkRoomAvailability
      (updateBookingStatus [sampleBooking] sampleBooking.id "Rejected" none).2
      2 "2025-12-24" "2025-12-26" none = true :=
  c6_reject_or_cancel_frees_room [sampleBooking] sampleBooking 2 "2025-12-24" "2025-12-26"
    "Rejected" (List.mem_cons_self ..) rfl rfl (by decide) (by decide)
    (by decide) (Or.inl rfl)

/-- C7: for a creation request passing the room-list, extra-bed and Zod
field validations, if any selected room conflicts with an active booking
for the requested range then no row is inserted, the response is a 409
conflict naming a conflicting selected room, and every uploaded file of the
submission is deleted by the cleanup. -/
theorem c7_any_room_conflict_rejects_submission
    (db : DB) (genId today : String) (r : CreateReq)
    (hrn : ∀ l, r.roomNumbers = some l → roomListOk l = true)
    (heb : ∀ l, r.extraBeds = some l → roomListOk l = true)
    (hsub : ∀ l rl, r.extraBeds = some l → r.roomNumbers = some rl →
      l.all (fun x => rl.contains x) = true)
    (hzod : zodValidBooking r = true)
    (hconf : ∃ room ∈ selectedRooms r,
      checkRoomAvailability db room r.checkInDate r.checkOutDate none = false) :
    ∃ room ∈ selectedRooms r,
      checkRoomAvailability db room r.checkInDate r.checkOutDate none = false ∧
      (postBooking db genId today r).resp = CreateResp.conflict room ∧
      (postBooking db genId today r).db = db ∧
      (∀ f, r.idPhotoFile = some f ∨ r.paymentSlipFile = some f →
        f ∈ (postBooking db genId today r).deletedFiles) := by
  have h1 : (match r.roomNumbers with
      | some l => !(roomListOk l)
      | none => false) = false := by
    cases hc : r.roomNumbers with
    | none => rfl
    | some l =>
        show (!(roomListOk l)) = false
        rw [hrn l hc]
        rfl
  have h2 : (match r.extraBeds with
      | some l => !(roomListOk l)
      | none => false) = false := by
    cases hc : r.extraBeds with
    | none => rfl
    | some l =>
        show (!(roomListOk l)) = false
        rw [heb l hc]
        rfl
  have h3 : (match r.extraBeds, r.roomNumbers with
      | some l, some rl => !(l.all (fun x => rl.contains x))
      | _, _ => false) = false := by
    cases hc : r.extraBeds with
    | none => rfl
    | some l =>
        cases hc2 : r.roomNumbers with
        | none => rfl
        | some rl =>
            show (!(l.all (fun x => rl.contains x))) = false
            rw [hsub l rl hc hc2]
            rfl
  cases hfind : (selectedRooms r).find?
      (fun room => !(checkRoomAvailability db room r.checkInDate r.checkOutDate none)) with
  | none =>
      exfalso
      rcases hconf with ⟨room, hmem, hfalse⟩
      have hnone := List.find?_eq_none.mp hfind room hmem
      rw [hfalse] at hnone
      exact hnone rfl
  | some room0 =>
      have hmem0 := List.mem_of_find?_eq_some hfind
      have hpred0 := List.find?_some hfind
      have hfalse0 : checkRoomAvailability db room0 r.checkInDate r.checkOutDate none
          = false := by
        cases hcc : checkRoomAvailability db room0 r.checkInDate r.checkOutDate none
        · rfl
        · rw [hcc] at hpred0
          exact Bool.noConfusion hpred0
      have hpost : postBooking db genId today r =
          ⟨CreateResp.conflict room0, db, cleanupFiles r⟩ := by
        unfold postBooking
        rw [h1, h2, h3, hzod]
        simp [hfind]
      refine ⟨room0, hmem0, hfalse0, ?_, ?_, ?_⟩
      · rw [hpost]
      · rw [hpost]
      · intro f hf
        rw [hpost]
        simp only [cleanupFiles]
        rcases hf with hf | hf
        · rw [hf]
          simp
        · rw [hf]
          simp

/-- C7, concrete witness: booking room 2 over 2025-12-24..26 while the
pending `sampleBooking` occupies room 2 over 2025-12-24..25 is answered
with a conflict, the store is unchanged and both uploads are deleted. -/
theorem c7_witness :
    ∃ room ∈ selectedRooms sampleCreateReq,
      checkRoomAvailability [sampleBooking] room sampleCreateReq.checkInDate
        sampleCreateReq.checkOutDate none = false ∧
      (postBooking [sampleBooking] "g1" "2025-12-20" sampleCreateReq).resp =
        CreateResp.conflict room ∧
      (postBooking [sampleBooking] "g1" "2025-12-20" sampleCreateReq).db = [sampleBooking] ∧
      (∀ f, sampleCreateReq.idPhotoFile = some f ∨ sampleCreateReq.paymentSlipFile = some f →
        f ∈ (postBooking [sampleBooking] "g1" "2025-12-20" sampleCreateReq).deletedFiles) :=
  c7_any_room_conflict_rejects_submission [sampleBooking] "g1" "2025-12-20" sampleCreateReq
    (fun l h => Option.noConfusion h)
    (fun l h => Option.noConfusion h)
    (fun l rl h _ => Option.noConfusion h)
    (by decide)
    ⟨2, by decide, by decide⟩

/-- C8 counterexample: `createBooking` does not force the status to Pending
— an input carrying status "Confirmed" is persisted as Confirmed (the `||`
only defaults falsy values). -/
theorem c8_counterexample_status_not_forced :
    confirmedInsert.status = some "Confirmed" ∧
    (createBooking [] "g1" "2025-12-20" confirmedInsert).1.status = "Confirmed" ∧
    (createBooking [] "g1" "2025-12-20" confirmedInsert).1.status ≠ "Pending" := by
  decide

/-- C8 (amended): `createBooking` defaults the status to "Pending" and the
booking_date to the creation day only when the input value is absent or the
empty string (JavaScript falsy); for such inputs the inserted row has
status Pending and booking_date `today`, and the returned value is the
persisted row, carrying the generated id, appended to the relation. -/
theorem c8_amended_create_defaults_status
    (db : DB) (genId today : String) (ins : InsertBooking)
    (hst : ins.status = none ∨ ins.status = some "")
    (hbd : ins.bookingDate = none ∨ ins.bookingDate = some "") :
    (createBooking db genId today ins).1.status = "Pending" ∧
    (createBooking db genId today ins).1.bookingDate = today ∧
    (createBooking db genId today ins).1.id = genId ∧
    (createBooking db genId today ins).2 = db ++ [(createBooking db genId today ins).1] := by
  refine ⟨?_, ?_, rfl, rfl⟩
  · rcases hst with h | h <;> simp [createBooking, jsStrOr, h]
  · rcases hbd with h | h <;> simp [createBooking, jsStrOr, h]

/-- C8 amended, concrete witness: inserting with absent status and
booking_date yields a Pending row dated at creation with the generated id. -/
theorem c8_amended_witness :
    (createBooking [] "g2" "2025-12-21" pendingInsert).1.status = "Pending" ∧
    (createBooking [] "g2" "2025-12-21" pendingInsert).1.bookingDate = "2025-12-21" ∧
    (createBooking [] "g2" "2025-12-21" pendingInsert).1.id = "g2" ∧
    (createBooking [] "g2" "2025-12-21" pendingInsert).2 =
      [] ++ [(createBooking [] "g2" "2025-12-21" pendingInsert).1] :=
  c8_amended_create_defaults_status [] "g2" "2025-12-21" pendingInsert
    (Or.inl rfl) (Or.inl rfl)

/-- C9: `updateBookingStatus` preserves the relation's length; rows with a
different id are untouched; every row with the target id gets exactly the
new status — its admin_notes is kept when `adminNotes` was not supplied
and overwritten when it was, and every other column is unchanged; for an
id with no matching row it returns the absence sentinel and leaves the
relation unchanged; when the id matches a row, it returns that (first
matching) row with the update applied. -/
theorem c9_updateBookingStatus_frame (db : DB) (id st : String) (notes : Option String) :
    ((updateBookingStatus db id st notes).2).length = db.length ∧
    (∀ (i : Nat) (b : Booking), db[i]? = some b → b.id ≠ id →
      ((updateBookingStatus db id st notes).2)[i]? = some b) ∧
    (∀ (i : Nat) (b : Booking), db[i]? = some b → b.id = id →
      ((updateBookingStatus db id st notes).2)[i]? = some (setStatusFields st notes b) ∧
      (setStatusFields st notes b).status = st ∧
      (notes = none → (setStatusFields st notes b).adminNotes = b.adminNotes) ∧
      (∀ n, notes = some n → (setStatusFields st notes b).adminNotes = some n) ∧
      agreesExceptStatusNotes b (setStatusFields st notes b)) ∧
    ((∀ b ∈ db, b.id ≠ id) →
      (updateBookingStatus db id st notes).1 = none ∧
      (updateBookingStatus db id st notes).2 = db) ∧
    (∀ b, getBooking db id = some b →
      (updateBookingStatus db id st notes).1 = some (setStatusFields st notes b)) := by
  have hdb2 : (updateBookingStatus db id st notes).2 =
      db.map (fun x => if x.id == id then setStatusFields st notes x else x) := rfl
  refine ⟨?_, ?_, ?_, ?_, ?_⟩
  · rw [hdb2, List.length_map]
  · intro i b hi hne
    have hbeq : ¬ ((b.id == id) = true) := by
      simp only [beq_iff_eq]
      exact hne
    rw [hdb2, List.getElem?_map, hi, Option.map_some', if_neg hbeq]
  · intro i b hi heq
    have hbeq : (b.id == id) = true := beq_iff_eq.mpr heq
    refine ⟨?_, rfl, ?_, ?_, ?_⟩
    · rw [hdb2, List.getElem?_map, hi, Option.map_some', if_pos hbeq]
    · intro hn
      rw [hn]
      rfl
    · intro n hn
      rw [hn]
      rfl
    · exact ⟨rfl, rfl, rfl, rfl, rfl, rfl, rfl, rfl, rfl, rfl, rfl, rfl, rfl, rfl, rfl,
        rfl, rfl⟩
  · intro hall
    have hmapid : db.map (fun x => if x.id == id then setStatusFields st notes x else x)
        = db := by
      have hcongr : db.map (fun x => if x.id == id then setStatusFields st notes x else x)
          = db.map (fun x => x) := by
        refine List.map_congr_left ?_
        intro a ha
        have hbeq : ¬ ((a.id == id) = true) := by
          simp only [beq_iff_eq]
          exact hall a ha
        rw [if_neg hbeq]
      rw [hcongr, List.map_id']
    constructor
    · have hup1 : (updateBookingStatus db id st notes).1 =
          ((db.map (fun x => if x.id == id then setStatusFields st notes x else x)).filter
            (fun x => x.id == id)).head? := rfl
      rw [hup1, hmapid]
      have hnil : db.filter (fun x => x.id == id) = [] := by
        rw [List.filter_eq_nil_iff]
        intro a ha
        simp only [beq_iff_eq]
        exact hall a ha
      rw [hnil]
      rfl
    · rw [hdb2, hmapid]
  · intro b hget
    exact updateBookingStatus_of_getBooking db id st notes b hget

/-- C10: `checkRoomAvailability` compares only the scalar `room_number`
column — an active booking whose `room_numbers` list contains the queried
room but whose `room_number` differs is not counted as a conflict, does not
change the availability answer, and a new overlapping single-room request
for that room is accepted by `POST /api/bookings` even though the room is
held by the multi-room booking. -/
theorem c10_multiroom_list_ignored
    (db : DB) (b : Booking) (rooms : List Int) (rn : Int)
    (genId today : String) (r : CreateReq)
    (hrooms : b.roomNumbers = some rooms) (hr : rn ∈ rooms) (hne : b.roomNumber ≠ rn)
    (hact : isActiveStatus b.status = true)
    (hol1 : strLt b.checkInDate r.checkOutDate = true)
    (hol2 : strLt r.checkInDate b.checkOutDate = true)
    (hreq : r.roomNumber = rn) (hrn : r.roomNumbers = none) (heb : r.extraBeds = none)
    (hzod : zodValidBooking r = true)
    (hfree : checkRoomAvailability db rn r.checkInDate r.checkOutDate none = true) :
    conflictsWith rn r.checkInDate r.checkOutDate none b = false ∧
    checkRoomAvailability (b :: db) rn r.checkInDate r.checkOutDate none = true ∧
    (postBooking (b :: db) genId today r).resp =
      CreateResp.created (createBooking (b :: db) genId today (insertFromReq r today)).1 := by
  have hcb : conflictsWith rn r.checkInDate r.checkOutDate none b = false := by
    unfold conflictsWith
    have hbeq : (b.roomNumber == rn) = false := by
      rw [beq_eq_false_iff_ne]
      exact hne
    rw [hbeq]
    simp
  have hav : checkRoomAvailability (b :: db) rn r.checkInDate r.checkOutDate none = true := by
    unfold checkRoomAvailability at hfree ⊢
    rw [List.filter_cons_of_neg]
    · exact hfree
    · intro hx
      rw [hcb] at hx
      exact Bool.noConfusion hx
  have hpost : postBooking (b :: db) genId today r =
      ⟨CreateResp.created (createBooking (b :: db) genId today (insertFromReq r today)).1,
        (createBooking (b :: db) genId today (insertFromReq r today)).2, []⟩ := by
    unfold postBooking
    rw [hrn, heb, hzod]
    simp [selectedRooms, hrn, List.find?, hreq, hav]
  exact ⟨hcb, hav, by rw [hpost]⟩

/-- C10, concrete witness: the multi-room booking `multiRoomSample`
(room_number 1, room_numbers [1,2], 2025-12-24..25) does not block a new
overlapping booking of room 2 over 2025-12-24..26. -/
theorem c10_witness :
    conflictsWith 2 sampleCreateReq.checkInDate sampleCreateReq.checkOutDate none
      multiRoomSample = false ∧
    checkRoomAvailability [multiRoomSample] 2 sampleCreateReq.checkInDate
      sampleCreateReq.checkOutDate none = true ∧
    (postBooking [multiRoomSample] "g1" "2025-12-20" sampleCreateReq).resp =
      CreateResp.created
        (createBooking [multiRoomSample] "g1" "2025-12-20"
          (insertFromReq sampleCreateReq "2025-12-20")).1 :=
  c10_multiroom_list_ignored [] multiRoomSample [1, 2] 2 "g1" "2025-12-20" sampleCreateReq
    rfl (by decide) (by decide) (by decide) (by decide) (by decide)
    rfl rfl rfl (by decide) (by decide)

/-- C1, concrete check: the pending sample booking makes its overlapping
range unavailable. -/
theorem c1_witness :
    checkRoomAvailability [sampleBooking] 2 "2025-12-24" "2025-12-26" none = false :=
  (c1_checkRoomAvailability_false_iff_overlap [sampleBooking] 2 "2025-12-24" "2025-12-26"
      none).1.mpr
    ⟨sampleBooking, List.mem_cons_self .., rfl, by decide, by decide,
      fun ex hex => Option.noConfusion hex, by decide, by decide⟩

/-- C9, concrete check: updating the sample booking's status returns the
updated row. -/
theorem c9_witness :
    (updateBookingStatus [sampleBooking] "b1" "Confirmed" none).1 =
      some (setStatusFields "Confirmed" none sampleBooking) :=
  (c9_updateBookingStatus_frame [sampleBooking] "b1" "Confirmed" none).2.2.2.2
    sampleBooking (by decide)
